import Mathlib

/-!
Verification model of the data-access layer of the academic-companion-hub
repository (`src/src/App.tsx`: `SemesterAPI`, `SubjectAPI`, `PDFAPI`, and
`src/unnamed/part_000`: `connectDB`).

Modelling conventions:
* localStorage is modelled per collection key as a `StoredVal`: the key is
  absent, holds a malformed string (`JSON.parse` throws), or holds a
  serialized list of records.  `JSON.stringify`/`JSON.parse` round-tripping
  of well-formed lists is assumed faithful.
* The MongoDB collection behind each mongoose model is a `List` of document
  records; `_id` is the document key.  `find().sort(...)` is modelled as a
  sorted permutation of the collection (`List.insertionSort`),
  `findByIdAndUpdate` / `findByIdAndDelete` act on the first `_id` match.
* Thrown JS exceptions are modelled by fault-injection parameters
  (`Option String` = the message thrown by a store call, `none` = no fault);
  every API function is total, which models the surrounding
  `try`/`catch` that converts any fault into a defined result.
* `Math.random().toString(36).substring(2, 9)` (`generateId`) is modelled as
  an oracle: the generated string is passed in as a parameter, since the
  source draws it from a random source with no uniqueness check.
-/

namespace AppModel

/-- Semester entity in its API (wire) shape: `{ id, name, order }`. -/
structure SemesterType where
  id : String
  name : String
  order : Int
deriving DecidableEq, Repr

/-- Subject entity in its API shape: `{ id, name, semesterId }`. -/
structure SubjectType where
  id : String
  name : String
  semesterId : String
deriving DecidableEq, Repr

/-- Resource (PDF) entity in its API shape; `createdAt` is the numeric
timestamp (milliseconds since epoch) produced by `createdAt.getTime()`. -/
structure PDFType where
  id : String
  title : String
  fileName : String
  fileUrl : String
  semesterId : String
  subjectId : String
  createdAt : Int
deriving DecidableEq, Repr

/-- Model of `Partial<SemesterType>`: each field possibly present. -/
structure SemesterPatch where
  id : Option String
  name : Option String
  order : Option Int
deriving DecidableEq, Repr

/-- Model of `Partial<SubjectType>`. -/
structure SubjectPatch where
  id : Option String
  name : Option String
  semesterId : Option String
deriving DecidableEq, Repr

/-- Model of `Partial<PDFType>`. -/
structure PDFPatch where
  id : Option String
  title : Option String
  fileName : Option String
  fileUrl : Option String
  semesterId : Option String
  subjectId : Option String
  createdAt : Option Int
deriving DecidableEq, Repr

/-- JS object spread `{ ...sem, ...data }`: a field present in `data`
overrides, an absent one keeps the previous value. -/
def spreadSemester (s : SemesterType) (d : SemesterPatch) : SemesterType :=
  ⟨d.id.getD s.id, d.name.getD s.name, d.order.getD s.order⟩

/-- JS object spread `{ ...sub, ...data }` for subjects. -/
def spreadSubject (s : SubjectType) (d : SubjectPatch) : SubjectType :=
  ⟨d.id.getD s.id, d.name.getD s.name, d.semesterId.getD s.semesterId⟩

/-- JS `x || dflt` on an optional number: `undefined` and `0` are falsy. -/
def jsOrElse (x : Option Int) (dflt : Int) : Int :=
  match x with
  | none => dflt
  | some v => if v = 0 then dflt else v

/-- State of one localStorage key: absent, present but not parseable
(`JSON.parse` throws), or a parsed list of records. -/
inductive StoredVal (α : Type) where
  | absent : StoredVal α
  | malformed : StoredVal α
  | val : List α → StoredVal α
deriving DecidableEq, Repr

/-- The localStorage keys used by the fallback paths: one key per
collection name (`semesters`, `subjects`, `pdfs`). -/
structure LocalStorage where
  semesters : StoredVal SemesterType
  subjects : StoredVal SubjectType
  pdfs : StoredVal PDFType
deriving DecidableEq, Repr

def LocalStorage.setSemesters (ls : LocalStorage) (v : StoredVal SemesterType) :
    LocalStorage :=
  ⟨v, ls.subjects, ls.pdfs⟩

def LocalStorage.setSubjects (ls : LocalStorage) (v : StoredVal SubjectType) :
    LocalStorage :=
  ⟨ls.semesters, v, ls.pdfs⟩

def LocalStorage.setPdfs (ls : LocalStorage) (v : StoredVal PDFType) :
    LocalStorage :=
  ⟨ls.semesters, ls.subjects, v⟩

/-- Local Fallback Store read as the specification states it
(`read(collectionName) → ordered sequence of raw records (empty if absent)`).
Used only to compare the code against the spec; the spec does not speak of a
malformed stored value, on which this returns the empty sequence. -/
def specFallbackRead {α : Type} (v : StoredVal α) : List α :=
  match v with
  | .absent => []
  | .malformed => []
  | .val l => l

/-! ### Browser (localStorage fallback) path, `isBrowser = true` -/

/-- Model of `SemesterAPI.getAll`, browser branch: returns `JSON.parse` of the
`semesters` key if present, else `[]`; a parse fault is caught by the
enclosing `try` and yields `[]`.  The branch performs no write, so the
storage state is returned unchanged. -/
def SemesterAPI.getAllBrowser (ls : LocalStorage) :
    List SemesterType × LocalStorage :=
  match ls.semesters with
  | .absent => ([], ls)
  | .malformed => ([], ls)
  | .val l => (l, ls)

/-- Model of `SemesterAPI.add`, browser branch: builds
`{ id: generateId(), name, order: order || 0 }`, appends it to the parsed
`semesters` list (empty if the key is absent) and writes the list back;
a parse fault is caught and yields `null` with no write.  `newId` is the
oracle value of `generateId()`. -/
def SemesterAPI.addBrowser (name : String) (order : Option Int)
    (newId : String) (ls : LocalStorage) :
    Option SemesterType × LocalStorage :=
  let newSemester : SemesterType := ⟨newId, name, jsOrElse order 0⟩
  match ls.semesters with
  | .absent => (some newSemester, ls.setSemesters (.val [newSemester]))
  | .malformed => (none, ls)
  | .val l => (some newSemester, ls.setSemesters (.val (l ++ [newSemester])))

/-- Model of `SemesterAPI.update`, browser branch: if the `semesters` key is present,
maps `sem.id === id ? { ...sem, ...data } : sem` over the parsed list and
writes it back, returning `true`; with the key absent it writes nothing and
still returns `true`; a parse fault is caught and yields `false`. -/
def SemesterAPI.updateBrowser (id : String) (data : SemesterPatch)
    (ls : LocalStorage) : Bool × LocalStorage :=
  match ls.semesters with
  | .absent => (true, ls)
  | .malformed => (false, ls)
  | .val l =>
    (true, ls.setSemesters
      (.val (l.map fun sem => if sem.id = id then spreadSemester sem data else sem)))

/-- Model of `SemesterAPI.delete`, browser branch: if the `semesters` key is present,
filters out `sem.id === id` and writes the rest back, returning `true`;
absent key writes nothing, still `true`; parse fault yields `false`. -/
def SemesterAPI.deleteBrowser (id : String) (ls : LocalStorage) :
    Bool × LocalStorage :=
  match ls.semesters with
  | .absent => (true, ls)
  | .malformed => (false, ls)
  | .val l =>
    (true, ls.setSemesters (.val (l.filter fun sem => sem.id ≠ id)))

/-- Model of `SubjectAPI.getAll`, browser branch (same shape as the Semester one,
over the `subjects` key). -/
def SubjectAPI.getAllBrowser (ls : LocalStorage) :
    List SubjectType × LocalStorage :=
  match ls.subjects with
  | .absent => ([], ls)
  | .malformed => ([], ls)
  | .val l => (l, ls)

/-- Model of `SubjectAPI.add`, browser branch: appends
`{ id: generateId(), name, semesterId }` to the `subjects` key. -/
def SubjectAPI.addBrowser (name : String) (semesterId : String)
    (newId : String) (ls : LocalStorage) :
    Option SubjectType × LocalStorage :=
  let newSubject : SubjectType := ⟨newId, name, semesterId⟩
  match ls.subjects with
  | .absent => (some newSubject, ls.setSubjects (.val [newSubject]))
  | .malformed => (none, ls)
  | .val l => (some newSubject, ls.setSubjects (.val (l ++ [newSubject])))

/-- Model of `SubjectAPI.update`, browser branch. -/
def SubjectAPI.updateBrowser (id : String) (data : SubjectPatch)
    (ls : LocalStorage) : Bool × LocalStorage :=
  match ls.subjects with
  | .absent => (true, ls)
  | .malformed => (false, ls)
  | .val l =>
    (true, ls.setSubjects
      (.val (l.map fun sub => if sub.id = id then spreadSubject sub data else sub)))

/-- Model of `SubjectAPI.delete`, browser branch. -/
def SubjectAPI.deleteBrowser (id : String) (ls : LocalStorage) :
    Bool × LocalStorage :=
  match ls.subjects with
  | .absent => (true, ls)
  | .malformed => (false, ls)
  | .val l =>
    (true, ls.setSubjects (.val (l.filter fun sub => sub.id ≠ id)))

/-- Model of `SubjectAPI.getBySemester`, browser branch: filters the parsed
`subjects` list by `sub.semesterId === semesterId`; absent key or a caught
parse fault yields `[]`.  No write. -/
def SubjectAPI.getBySemesterBrowser (semesterId : String) (ls : LocalStorage) :
    List SubjectType × LocalStorage :=
  match ls.subjects with
  | .absent => ([], ls)
  | .malformed => ([], ls)
  | .val l => (l.filter fun sub => sub.semesterId = semesterId, ls)

/-! `PDFAPI` has no localStorage branch at all: none of its operations
mention `localStorage` in the source.  In a browser the mongoose `PDF`
model is not available.  Modelled from the spec: `@/db/models/PDF` is not
under `src/`; per the spec the Record Store Capability is absent in the
browser, so the model object is `null` there.  Consequently `getAll` takes
its availability-guard branch and returns `[]`, and `add`/`update`/`delete`
throw on the `null` model, which the `catch` converts to
`null`/`false`/`false`.  No operation reads or writes any localStorage
key. -/

/-- Model of `PDFAPI.getAll` in a browser: the guard
`!PDF || typeof PDF.find !== 'function'` fires (model unavailable, see the
section comment) and the function returns `[]`; localStorage is untouched. -/
def PDFAPI.getAllBrowser (ls : LocalStorage) : List PDFType × LocalStorage :=
  ([], ls)

/-- Model of `PDFAPI.add` in a browser: `new PDF(...)` throws on the `null` model,
the `catch` returns `null`; localStorage is untouched. -/
def PDFAPI.addBrowser (ls : LocalStorage) : Option PDFType × LocalStorage :=
  (none, ls)

/-- Model of `PDFAPI.update` in a browser: `PDF.findByIdAndUpdate` throws on the
`null` model, the `catch` returns `false`; localStorage is untouched. -/
def PDFAPI.updateBrowser (ls : LocalStorage) : Bool × LocalStorage :=
  (false, ls)

/-- Model of `PDFAPI.delete` in a browser: `PDF.findByIdAndDelete` throws on the
`null` model, the `catch` returns `false`; localStorage is untouched. -/
def PDFAPI.deleteBrowser (ls : LocalStorage) : Bool × LocalStorage :=
  (false, ls)

/-! ### Server (mongoose / MongoDB) path, `isBrowser = false` -/

/-- Semester document in the `semesters` collection:
`{ _id, name, order }`. -/
structure SemesterRec where
  _id : String
  name : String
  order : Int
deriving DecidableEq, Repr

/-- Subject document in the `subjects` collection. -/
structure SubjectRec where
  _id : String
  name : String
  semesterId : String
deriving DecidableEq, Repr

/-- PDF document in the `pdfs` collection; `createdAt` is kept as the
millisecond timestamp of the stored `Date`. -/
structure PDFRec where
  _id : String
  title : String
  fileName : String
  fileUrl : String
  semesterId : String
  subjectId : String
  createdAt : Int
deriving DecidableEq, Repr

/-- Sort key of `Semester.find().sort({ order: 1, name: 1 })`:
ascending order, ties broken by ascending name. -/
def semesterLE (a b : SemesterRec) : Prop :=
  a.order < b.order ∨ (a.order = b.order ∧ a.name ≤ b.name)

instance : DecidableRel semesterLE := fun a b => by
  unfold semesterLE; infer_instance

instance : IsTotal SemesterRec semesterLE where
  total a b := by
    unfold semesterLE
    rcases lt_trichotomy a.order b.order with h | h | h
    · exact Or.inl (Or.inl h)
    · rcases le_total a.name b.name with hn | hn
      · exact Or.inl (Or.inr ⟨h, hn⟩)
      · exact Or.inr (Or.inr ⟨h.symm, hn⟩)
    · exact Or.inr (Or.inl h)

instance : IsTrans SemesterRec semesterLE where
  trans a b c hab hbc := by
    unfold semesterLE at *
    rcases hab with h1 | ⟨h1, h1n⟩
    · rcases hbc with h2 | ⟨h2, _⟩
      · exact Or.inl (h1.trans h2)
      · exact Or.inl (h2 ▸ h1)
    · rcases hbc with h2 | ⟨h2, h2n⟩
      · exact Or.inl (h1 ▸ h2)
      · exact Or.inr ⟨h1.trans h2, h1n.trans h2n⟩

/-- Sort key of `Subject.find().sort({ name: 1 })`. -/
def subjectLE (a b : SubjectRec) : Prop := a.name ≤ b.name

instance : DecidableRel subjectLE := fun a b => by
  unfold subjectLE; infer_instance

instance : IsTotal SubjectRec subjectLE where
  total a b := le_total a.name b.name

instance : IsTrans SubjectRec subjectLE where
  trans _ _ _ hab hbc := le_trans hab hbc

/-- Sort key of `PDF.find().sort({ createdAt: -1 })`: newest first. -/
def pdfGE (a b : PDFRec) : Prop := b.createdAt ≤ a.createdAt

instance : DecidableRel pdfGE := fun a b => by
  unfold pdfGE; infer_instance

instance : IsTotal PDFRec pdfGE where
  total a b := le_total b.createdAt a.createdAt

instance : IsTrans PDFRec pdfGE where
  trans _ _ _ hab hbc := le_trans hbc hab

/-- Model of `Semester.find().sort({ order: 1, name: 1 })`: the collection as a
sorted sequence. -/
def semesterFind (db : List SemesterRec) : List SemesterRec :=
  db.insertionSort semesterLE

/-- Model of `Subject.find().sort({ name: 1 })`. -/
def subjectFind (db : List SubjectRec) : List SubjectRec :=
  db.insertionSort subjectLE

/-- Model of `PDF.find().sort({ createdAt: -1 })`. -/
def pdfFind (db : List PDFRec) : List PDFRec :=
  db.insertionSort pdfGE

/-- Read-side normalization of a Semester document:
`{ id: sem._id.toString(), name: sem.name, order: sem.order || 0 }`. -/
def semesterOut (r : SemesterRec) : SemesterType :=
  ⟨r._id, r.name, jsOrElse (some r.order) 0⟩

/-- Read-side normalization of a Subject document. -/
def subjectOut (r : SubjectRec) : SubjectType :=
  ⟨r._id, r.name, r.semesterId⟩

/-- Read-side normalization of a PDF document
(`createdAt: pdf.createdAt.getTime()`). -/
def pdfOut (r : PDFRec) : PDFType :=
  ⟨r._id, r.title, r.fileName, r.fileUrl, r.semesterId, r.subjectId, r.createdAt⟩

/-- Model of `findByIdAndUpdate` on the `semesters` collection: `$set` the patch
fields on the first (hence, `_id` being a unique key, the only) document
whose `_id` matches; no match leaves the collection unchanged.  A stray
`id` field in the patch would be written as an extra attribute that no
read path surfaces, so it does not alter `_id` and is dropped here. -/
def semesterUpdateFirst : List SemesterRec → String → SemesterPatch → List SemesterRec
  | [], _, _ => []
  | r :: rs, i, d =>
    if r._id = i then ⟨r._id, d.name.getD r.name, d.order.getD r.order⟩ :: rs
    else r :: semesterUpdateFirst rs i d

/-- Model of `findByIdAndUpdate` on the `subjects` collection. -/
def subjectUpdateFirst : List SubjectRec → String → SubjectPatch → List SubjectRec
  | [], _, _ => []
  | r :: rs, i, d =>
    if r._id = i then ⟨r._id, d.name.getD r.name, d.semesterId.getD r.semesterId⟩ :: rs
    else r :: subjectUpdateFirst rs i d

/-- Model of `findByIdAndUpdate` on the `pdfs` collection. -/
def pdfUpdateFirst : List PDFRec → String → PDFPatch → List PDFRec
  | [], _, _ => []
  | r :: rs, i, d =>
    if r._id = i then
      ⟨r._id, d.title.getD r.title, d.fileName.getD r.fileName,
       d.fileUrl.getD r.fileUrl, d.semesterId.getD r.semesterId,
       d.subjectId.getD r.subjectId, d.createdAt.getD r.createdAt⟩ :: rs
    else r :: pdfUpdateFirst rs i d

/-- Model of `findByIdAndDelete` on the `semesters` collection: removes the first
(only) document whose `_id` matches; no match leaves it unchanged. -/
def semesterDeleteFirst : List SemesterRec → String → List SemesterRec
  | [], _ => []
  | r :: rs, i => if r._id = i then rs else r :: semesterDeleteFirst rs i

/-- Model of `findByIdAndDelete` on the `subjects` collection. -/
def subjectDeleteFirst : List SubjectRec → String → List SubjectRec
  | [], _ => []
  | r :: rs, i => if r._id = i then rs else r :: subjectDeleteFirst rs i

/-- Model of `findByIdAndDelete` on the `pdfs` collection. -/
def pdfDeleteFirst : List PDFRec → String → List PDFRec
  | [], _ => []
  | r :: rs, i => if r._id = i then rs else r :: pdfDeleteFirst rs i

/-- The `DEFAULT_SEMESTERS` constant: `(name, order)` pairs. -/
def DEFAULT_SEMESTERS : List (String × Int) :=
  [("Semester 1", 1), ("Semester 2", 2), ("Semester 3", 3), ("Semester 4", 4),
   ("Semester 5", 5), ("Semester 6", 6), ("Semester 7", 7), ("Semester 8", 8)]

/-- The seeding loop of `SemesterAPI.getAll`: for each `DEFAULT_SEMESTERS`
entry, `new Semester({name, order, _id: generateId()}).save()` inside its
own `try`/`catch` — a failed save (`saveOk i = false`) is logged and
skipped, the loop continues.  `gen i` is the oracle value of the `i`-th
`generateId()` call. -/
def seedLoop (gen : Nat → String) (saveOk : Nat → Bool)
    (db : List SemesterRec) : List SemesterRec :=
  DEFAULT_SEMESTERS.enum.foldl
    (fun acc p =>
      if saveOk p.1 then acc ++ [⟨gen p.1, p.2.1, p.2.2⟩] else acc) db

/-- Model of `SemesterAPI.getAll`, server branch, with fault injection:
`findFault1` / `findFault2` are the exceptions thrown (if any) by the
first and second `Semester.find()`.  Returns the result list together
with the collection state after the call (the seeder may have written).
The enclosing `catch` converts any fault into `[]`. -/
def SemesterAPI.getAllServer (db : List SemesterRec) (gen : Nat → String)
    (saveOk : Nat → Bool) (findFault1 findFault2 : Option String) :
    List SemesterType × List SemesterRec :=
  match findFault1 with
  | some _ => ([], db)
  | none =>
    let semesters := semesterFind db
    if semesters.length = 0 then
      let db2 := seedLoop gen saveOk db
      match findFault2 with
      | some _ => ([], db2)
      | none => ((semesterFind db2).map semesterOut, db2)
    else
      (semesters.map semesterOut, db)

/-- Model of `Semester.findOne().sort({ order: -1 })`: the first document of the
collection sorted by descending order (`none` when the collection is
empty). -/
def semesterFindOneHighest (db : List SemesterRec) : Option SemesterRec :=
  (db.insertionSort fun a b => b.order ≤ a.order).head?

/-- Model of `SemesterAPI.add`, server branch.  `order` falsy (absent or `0`)
triggers the find-highest-then-add-one sequence; `newId` is the
`generateId()` oracle; `findFault` is a fault of the `findOne` (only
reachable on the falsy-order path), `saveFault` a fault of `save()`.
Any fault is caught and yields `null` with the collection unchanged. -/
def SemesterAPI.addServer (name : String) (order : Option Int)
    (newId : String) (db : List SemesterRec)
    (findFault saveFault : Option String) :
    Option SemesterType × List SemesterRec :=
  let needAuto : Bool := match order with
    | none => true
    | some o => o = 0
  if needAuto ∧ findFault.isSome then (none, db)
  else
    let semesterOrder : Int := match order with
      | none =>
        match semesterFindOneHighest db with
        | some highestSem => highestSem.order + 1
        | none => 1
      | some o =>
        if o = 0 then
          match semesterFindOneHighest db with
          | some highestSem => highestSem.order + 1
          | none => 1
        else o
    match saveFault with
    | some _ => (none, db)
    | none =>
      (some ⟨newId, name, semesterOrder⟩, db ++ [⟨newId, name, semesterOrder⟩])

/-- Model of `SemesterAPI.update`, server branch: `findByIdAndUpdate(id, data)`
then `return true`; a store fault is caught and yields `false` with the
collection unchanged. -/
def SemesterAPI.updateServer (id : String) (data : SemesterPatch)
    (db : List SemesterRec) (fault : Option String) :
    Bool × List SemesterRec :=
  match fault with
  | some _ => (false, db)
  | none => (true, semesterUpdateFirst db id data)

/-- Model of `SemesterAPI.delete`, server branch: `findByIdAndDelete(id)` then
`return true`; a fault is caught and yields `false`. -/
def SemesterAPI.deleteServer (id : String) (db : List SemesterRec)
    (fault : Option String) : Bool × List SemesterRec :=
  match fault with
  | some _ => (false, db)
  | none => (true, semesterDeleteFirst db id)

/-- Model of `SubjectAPI.getAll`, server branch. -/
def SubjectAPI.getAllServer (db : List SubjectRec) (findFault : Option String) :
    List SubjectType × List SubjectRec :=
  match findFault with
  | some _ => ([], db)
  | none => ((subjectFind db).map subjectOut, db)

/-- Model of `SubjectAPI.add`, server branch. -/
def SubjectAPI.addServer (name : String) (semesterId : String)
    (newId : String) (db : List SubjectRec) (saveFault : Option String) :
    Option SubjectType × List SubjectRec :=
  match saveFault with
  | some _ => (none, db)
  | none =>
    (some ⟨newId, name, semesterId⟩, db ++ [⟨newId, name, semesterId⟩])

/-- Model of `SubjectAPI.update`, server branch. -/
def SubjectAPI.updateServer (id : String) (data : SubjectPatch)
    (db : List SubjectRec) (fault : Option String) :
    Bool × List SubjectRec :=
  match fault with
  | some _ => (false, db)
  | none => (true, subjectUpdateFirst db id data)

/-- Model of `SubjectAPI.delete`, server branch. -/
def SubjectAPI.deleteServer (id : String) (db : List SubjectRec)
    (fault : Option String) : Bool × List SubjectRec :=
  match fault with
  | some _ => (false, db)
  | none => (true, subjectDeleteFirst db id)

/-- Model of `SubjectAPI.getBySemester`, server branch:
`Subject.find({ semesterId }).sort({ name: 1 })`. -/
def SubjectAPI.getBySemesterServer (semesterId : String)
    (db : List SubjectRec) (findFault : Option String) :
    List SubjectType × List SubjectRec :=
  match findFault with
  | some _ => ([], db)
  | none =>
    ((subjectFind (db.filter fun r => r.semesterId = semesterId)).map subjectOut, db)

/-- Model of `PDFAPI.getAll`, server branch: the availability guard
(`!PDF || typeof PDF.find !== 'function'`, `modelOk = false` when it
fires) returns `[]` before any store access; otherwise
`PDF.find().sort({ createdAt: -1 })` with a caught fault yielding `[]`. -/
def PDFAPI.getAllServer (modelOk : Bool) (db : List PDFRec)
    (findFault : Option String) : List PDFType × List PDFRec :=
  if !modelOk then ([], db)
  else
    match findFault with
    | some _ => ([], db)
    | none => ((pdfFind db).map pdfOut, db)

/-- Model of `PDFAPI.add`, server branch: saves
`{ ...pdf, _id: generateId(), createdAt: new Date() }` and returns the
normalized entity; a fault is caught and yields `null`.  `now` is the
timestamp of `new Date()`. -/
def PDFAPI.addServer (title fileName fileUrl semesterId subjectId : String)
    (newId : String) (now : Int) (db : List PDFRec)
    (saveFault : Option String) : Option PDFType × List PDFRec :=
  let newRec : PDFRec := ⟨newId, title, fileName, fileUrl, semesterId, subjectId, now⟩
  match saveFault with
  | some _ => (none, db)
  | none => (some (pdfOut newRec), db ++ [newRec])

/-- Model of `PDFAPI.update`, server branch. -/
def PDFAPI.updateServer (id : String) (data : PDFPatch)
    (db : List PDFRec) (fault : Option String) : Bool × List PDFRec :=
  match fault with
  | some _ => (false, db)
  | none => (true, pdfUpdateFirst db id data)

/-- Model of `PDFAPI.delete`, server branch. -/
def PDFAPI.deleteServer (id : String) (db : List PDFRec)
    (fault : Option String) : Bool × List PDFRec :=
  match fault with
  | some _ => (false, db)
  | none => (true, pdfDeleteFirst db id)

/-- The canonical Semester sort key on the wire shape
(order ascending, then name ascending). -/
def semesterTypeLE (a b : SemesterType) : Prop :=
  a.order < b.order ∨ (a.order = b.order ∧ a.name ≤ b.name)

instance : DecidableRel semesterTypeLE := fun a b => by
  unfold semesterTypeLE; infer_instance

/-- The canonical Subject sort key on the wire shape (name ascending). -/
def subjectTypeLE (a b : SubjectType) : Prop := a.name ≤ b.name

instance : DecidableRel subjectTypeLE := fun a b => by
  unfold subjectTypeLE; infer_instance

/-- The canonical Resource sort key on the wire shape
(creation time descending). -/
def pdfTypeGE (a b : PDFType) : Prop := b.createdAt ≤ a.createdAt

instance : DecidableRel pdfTypeGE := fun a b => by
  unfold pdfTypeGE; infer_instance

/-! ### `connectDB` (`src/unnamed/part_000`) -/

/-- Result of `connectDB`, distinguishing the four exit points of the
source: the browser early-return `null`, the already-connected
early-return of `mongoose.connection`, a fresh successful connection,
and the caught-fault `null`. -/
inductive ConnectOutcome where
  | browserNull : ConnectOutcome
  | existingConnection : ConnectOutcome
  | newConnection : ConnectOutcome
  | failedNull : ConnectOutcome
deriving DecidableEq, Repr

/-- Model of `connectDB`: `readyState` is `mongoose.connection.readyState` at entry
(`≥ 1` means connected or connecting); `attempt` is the outcome of
`mongoose.connect(MONGO_URI)` (`.error` = the connection fault it throws).
Returns the outcome together with whether `mongoose.connect` was invoked.
The `MONGO_URI` constant in the source is a non-empty literal, so the
`!MONGO_URI` throw is unreachable.  The function is total: every fault is
caught, logged and converted to the `null` return. -/
def connectDB (isBrowser : Bool) (readyState : Nat)
    (attempt : Except String Unit) : ConnectOutcome × Bool :=
  if isBrowser then (.browserNull, false)
  else if readyState ≥ 1 then (.existingConnection, false)
  else
    match attempt with
    | .ok _ => (.newConnection, true)
    | .error _ => (.failedNull, true)

/-! ### Helper lemmas -/

theorem jsOrElse_some (v : Int) : jsOrElse (some v) 0 = v := by
  unfold jsOrElse
  split <;> simp_all

theorem semesterOut_eq (r : SemesterRec) :
    semesterOut r = ⟨r._id, r.name, r.order⟩ := by
  unfold semesterOut
  rw [jsOrElse_some]

theorem sorted_map_semesterOut {l : List SemesterRec}
    (h : List.Sorted semesterLE l) :
    List.Sorted semesterTypeLE (l.map semesterOut) := by
  refine h.map semesterOut fun a b hab => ?_
  rw [semesterOut_eq, semesterOut_eq]
  exact hab

theorem sorted_map_subjectOut {l : List SubjectRec}
    (h : List.Sorted subjectLE l) :
    List.Sorted subjectTypeLE (l.map subjectOut) := by
  exact h.map subjectOut fun a b hab => hab

theorem sorted_map_pdfOut {l : List PDFRec}
    (h : List.Sorted pdfGE l) :
    List.Sorted pdfTypeGE (l.map pdfOut) := by
  exact h.map pdfOut fun a b hab => hab

theorem semesterDeleteFirst_no_match :
    ∀ (db : List SemesterRec) (i : String),
      (∀ r ∈ db, r._id ≠ i) → semesterDeleteFirst db i = db
  | [], _, _ => rfl
  | r :: rs, i, h => by
    unfold semesterDeleteFirst
    rw [if_neg (h r (List.mem_cons_self r rs)),
      semesterDeleteFirst_no_match rs i fun x hx => h x (List.mem_cons_of_mem r hx)]

theorem subjectDeleteFirst_no_match :
    ∀ (db : List SubjectRec) (i : String),
      (∀ r ∈ db, r._id ≠ i) → subjectDeleteFirst db i = db
  | [], _, _ => rfl
  | r :: rs, i, h => by
    unfold subjectDeleteFirst
    rw [if_neg (h r (List.mem_cons_self r rs)),
      subjectDeleteFirst_no_match rs i fun x hx => h x (List.mem_cons_of_mem r hx)]

theorem pdfDeleteFirst_no_match :
    ∀ (db : List PDFRec) (i : String),
      (∀ r ∈ db, r._id ≠ i) → pdfDeleteFirst db i = db
  | [], _, _ => rfl
  | r :: rs, i, h => by
    unfold pdfDeleteFirst
    rw [if_neg (h r (List.mem_cons_self r rs)),
      pdfDeleteFirst_no_match rs i fun x hx => h x (List.mem_cons_of_mem r hx)]

theorem semesterDeleteFirst_ids :
    ∀ (db : List SemesterRec) (i : String),
      (db.map SemesterRec._id).Nodup →
      ∀ r ∈ semesterDeleteFirst db i, r._id ≠ i
  | [], _, _, _, hr => absurd hr (List.not_mem_nil _)
  | r :: rs, i, h, x, hx => by
    rw [List.map_cons, List.nodup_cons] at h
    unfold semesterDeleteFirst at hx
    by_cases hri : r._id = i
    · rw [if_pos hri] at hx
      intro hxi
      exact h.1 (hri ▸ hxi ▸ List.mem_map_of_mem SemesterRec._id hx)
    · rw [if_neg hri] at hx
      rcases List.mem_cons.mp hx with hxr | hxr
      · exact hxr ▸ hri
      · exact semesterDeleteFirst_ids rs i h.2 x hxr

theorem subjectDeleteFirst_ids :
    ∀ (db : List SubjectRec) (i : String),
      (db.map SubjectRec._id).Nodup →
      ∀ r ∈ subjectDeleteFirst db i, r._id ≠ i
  | [], _, _, _, hr => absurd hr (List.not_mem_nil _)
  | r :: rs, i, h, x, hx => by
    rw [List.map_cons, List.nodup_cons] at h
    unfold subjectDeleteFirst at hx
    by_cases hri : r._id = i
    · rw [if_pos hri] at hx
      intro hxi
      exact h.1 (hri ▸ hxi ▸ List.mem_map_of_mem SubjectRec._id hx)
    · rw [if_neg hri] at hx
      rcases List.mem_cons.mp hx with hxr | hxr
      · exact hxr ▸ hri
      · exact subjectDeleteFirst_ids rs i h.2 x hxr

theorem pdfDeleteFirst_ids :
    ∀ (db : List PDFRec) (i : String),
      (db.map PDFRec._id).Nodup →
      ∀ r ∈ pdfDeleteFirst db i, r._id ≠ i
  | [], _, _, _, hr => absurd hr (List.not_mem_nil _)
  | r :: rs, i, h, x, hx => by
    rw [List.map_cons, List.nodup_cons] at h
    unfold pdfDeleteFirst at hx
    by_cases hri : r._id = i
    · rw [if_pos hri] at hx
      intro hxi
      exact h.1 (hri ▸ hxi ▸ List.mem_map_of_mem PDFRec._id hx)
    · rw [if_neg hri] at hx
      rcases List.mem_cons.mp hx with hxr | hxr
      · exact hxr ▸ hri
      · exact pdfDeleteFirst_ids rs i h.2 x hxr

theorem semesterUpdateFirst_no_match :
    ∀ (db : List SemesterRec) (i : String) (d : SemesterPatch),
      (∀ r ∈ db, r._id ≠ i) → semesterUpdateFirst db i d = db
  | [], _, _, _ => rfl
  | r :: rs, i, d, h => by
    unfold semesterUpdateFirst
    rw [if_neg (h r (List.mem_cons_self r rs)),
      semesterUpdateFirst_no_match rs i d fun x hx => h x (List.mem_cons_of_mem r hx)]

theorem subjectUpdateFirst_no_match :
    ∀ (db : List SubjectRec) (i : String) (d : SubjectPatch),
      (∀ r ∈ db, r._id ≠ i) → subjectUpdateFirst db i d = db
  | [], _, _, _ => rfl
  | r :: rs, i, d, h => by
    unfold subjectUpdateFirst
    rw [if_neg (h r (List.mem_cons_self r rs)),
      subjectUpdateFirst_no_match rs i d fun x hx => h x (List.mem_cons_of_mem r hx)]

theorem pdfUpdateFirst_no_match :
    ∀ (db : List PDFRec) (i : String) (d : PDFPatch),
      (∀ r ∈ db, r._id ≠ i) → pdfUpdateFirst db i d = db
  | [], _, _, _ => rfl
  | r :: rs, i, d, h => by
    unfold pdfUpdateFirst
    rw [if_neg (h r (List.mem_cons_self r rs)),
      pdfUpdateFirst_no_match rs i d fun x hx => h x (List.mem_cons_of_mem r hx)]

theorem semesterUpdateFirst_append :
    ∀ (pre : List SemesterRec) (r : SemesterRec) (post : List SemesterRec)
      (i : String) (d : SemesterPatch),
      (∀ x ∈ pre, x._id ≠ i) → r._id = i →
      semesterUpdateFirst (pre ++ r :: post) i d =
        pre ++ ⟨r._id, d.name.getD r.name, d.order.getD r.order⟩ :: post
  | [], r, post, i, d, _, hr => by
    unfold semesterUpdateFirst
    simp [hr]
  | p :: pre, r, post, i, d, h, hr => by
    unfold semesterUpdateFirst
    rw [List.cons_append]
    simp only []
    rw [if_neg (h p (List.mem_cons_self p pre)),
      semesterUpdateFirst_append pre r post i d
        (fun x hx => h x (List.mem_cons_of_mem p hx)) hr]
    rfl

theorem subjectUpdateFirst_append :
    ∀ (pre : List SubjectRec) (r : SubjectRec) (post : List SubjectRec)
      (i : String) (d : SubjectPatch),
      (∀ x ∈ pre, x._id ≠ i) → r._id = i →
      subjectUpdateFirst (pre ++ r :: post) i d =
        pre ++ ⟨r._id, d.name.getD r.name, d.semesterId.getD r.semesterId⟩ :: post
  | [], r, post, i, d, _, hr => by
    unfold subjectUpdateFirst
    simp [hr]
  | p :: pre, r, post, i, d, h, hr => by
    unfold subjectUpdateFirst
    rw [List.cons_append]
    simp only []
    rw [if_neg (h p (List.mem_cons_self p pre)),
      subjectUpdateFirst_append pre r post i d
        (fun x hx => h x (List.mem_cons_of_mem p hx)) hr]
    rfl

theorem pdfUpdateFirst_append :
    ∀ (pre : List PDFRec) (r : PDFRec) (post : List PDFRec)
      (i : String) (d : PDFPatch),
      (∀ x ∈ pre, x._id ≠ i) → r._id = i →
      pdfUpdateFirst (pre ++ r :: post) i d =
        pre ++ ⟨r._id, d.title.getD r.title, d.fileName.getD r.fileName,
          d.fileUrl.getD r.fileUrl, d.semesterId.getD r.semesterId,
          d.subjectId.getD r.subjectId, d.createdAt.getD r.createdAt⟩ :: post
  | [], r, post, i, d, _, hr => by
    unfold pdfUpdateFirst
    simp [hr]
  | p :: pre, r, post, i, d, h, hr => by
    unfold pdfUpdateFirst
    rw [List.cons_append]
    simp only []
    rw [if_neg (h p (List.mem_cons_self p pre)),
      pdfUpdateFirst_append pre r post i d
        (fun x hx => h x (List.mem_cons_of_mem p hx)) hr]
    rfl

theorem foldl_append_filterMap {α β : Type} (f : α → β) (ok : α → Bool) :
    ∀ (l : List α) (acc : List β),
      l.foldl (fun a x => if ok x then a ++ [f x] else a) acc
        = acc ++ l.filterMap fun x => if ok x then some (f x) else none
  | [], acc => by simp
  | x :: xs, acc => by
    rw [List.foldl_cons, List.filterMap_cons]
    cases h : ok x
    · rw [if_neg (by simp [h]), if_neg (by simp [h]),
        foldl_append_filterMap f ok xs acc]
    · rw [if_pos (by simp [h]), if_pos (by simp [h]),
        foldl_append_filterMap f ok xs (acc ++ [f x]), List.append_assoc]
      rfl

theorem seedLoop_eq_filterMap (gen : Nat → String) (saveOk : Nat → Bool)
    (db : List SemesterRec) :
    seedLoop gen saveOk db =
      db ++ DEFAULT_SEMESTERS.enum.filterMap fun p =>
        if saveOk p.1 then some ⟨gen p.1, p.2.1, p.2.2⟩ else none := by
  unfold seedLoop
  exact foldl_append_filterMap
    (fun p : Nat × String × Int => (⟨gen p.1, p.2.1, p.2.2⟩ : SemesterRec))
    (fun p => saveOk p.1) DEFAULT_SEMESTERS.enum db

theorem mem_seedLoop (gen : Nat → String) (saveOk : Nat → Bool)
    (db : List SemesterRec) (r : SemesterRec)
    (hr : r ∈ seedLoop gen saveOk db) :
    r ∈ db ∨ ∃ i, r._id = gen i := by
  rw [seedLoop_eq_filterMap, List.mem_append] at hr
  rcases hr with h | h
  · exact Or.inl h
  · rcases List.mem_filterMap.mp h with ⟨p, _, hp⟩
    rcases hps : saveOk p.1 with _ | _
    · rw [if_neg (by simp [hps])] at hp
      exact absurd hp (by simp)
    · rw [if_pos (by simp [hps])] at hp
      refine Or.inr ⟨p.1, ?_⟩
      rw [← Option.some_inj.mp hp]

theorem semesterFindOneHighest_max (db : List SemesterRec) (h : SemesterRec)
    (hh : semesterFindOneHighest db = some h) :
    ∀ r ∈ db, r.order ≤ h.order := by
  intro r hr
  unfold semesterFindOneHighest at hh
  have hperm := List.perm_insertionSort
    (fun a b : SemesterRec => b.order ≤ a.order) db
  haveI : IsTotal SemesterRec fun a b => b.order ≤ a.order :=
    ⟨fun a b => le_total b.order a.order⟩
  haveI : IsTrans SemesterRec fun a b => b.order ≤ a.order :=
    ⟨fun a b c hab hbc => le_trans hbc hab⟩
  have hsorted := List.sorted_insertionSort
    (fun a b : SemesterRec => b.order ≤ a.order) db
  have hrmem : r ∈ db.insertionSort fun a b => b.order ≤ a.order :=
    (List.mem_insertionSort _).mpr hr
  rcases hl : db.insertionSort (fun a b : SemesterRec => b.order ≤ a.order)
      with _ | ⟨x, xs⟩
  · rw [hl] at hrmem
    exact absurd hrmem (List.not_mem_nil _)
  · rw [hl] at hh hrmem hsorted
    have hx : x = h := by
      simpa using hh
    rcases List.mem_cons.mp hrmem with hrx | hrx
    · exact le_of_eq (congrArg SemesterRec.order (hx ▸ hrx))
    · exact hx ▸ List.rel_of_sorted_cons hsorted r hrx

theorem semesterFindOneHighest_none (db : List SemesterRec)
    (h : semesterFindOneHighest db = none) : db = [] := by
  unfold semesterFindOneHighest at h
  rcases db with _ | ⟨x, xs⟩
  · rfl
  · have hx : x ∈ (x :: xs).insertionSort fun a b : SemesterRec => b.order ≤ a.order :=
      (List.mem_insertionSort _).mpr (List.mem_cons_self x xs)
    rcases hl : (x :: xs).insertionSort (fun a b : SemesterRec => b.order ≤ a.order)
        with _ | ⟨y, ys⟩
    · rw [hl] at hx
      exact absurd hx (List.not_mem_nil _)
    · rw [hl] at h
      exact absurd h (by simp)

/-! ### Claims -/

/-- Claim C9: calling `connectDB` on the server when a connection is
already established (`readyState ≥ 1`) returns the existing connection
handle without invoking `mongoose.connect`, and a connection fault is
caught (logged) and yields the `null` return — the caller never sees a
raised exception. -/
theorem C9_connect_once (readyState : Nat) (attempt : Except String Unit)
    (e : String) :
    (readyState ≥ 1 →
      connectDB false readyState attempt = (.existingConnection, false))
    ∧ (¬ readyState ≥ 1 →
      connectDB false readyState (.error e) = (.failedNull, true)) := by
  constructor
  · intro h
    unfold connectDB
    rw [if_neg (by simp), if_pos h]
  · intro h
    unfold connectDB
    rw [if_neg (by simp), if_neg h]

theorem C9_connect_once_witness :
    connectDB false 1 (.error "refused") = (.existingConnection, false)
    ∧ connectDB false 0 (.error "refused") = (.failedNull, true) :=
  ⟨(C9_connect_once 1 (.error "refused") "refused").1 (by decide),
   (C9_connect_once 0 (.error "refused") "refused").2 (by decide)⟩

/-- Claim C3: for every entity kind, `getAll` never raises: on any fault of
the underlying store — a browser-path `JSON.parse` fault, a remote `find`
fault (including the re-read after seeding), or an uninitialized model —
it logs and returns the empty sequence.  Totality of the embedded
functions models the enclosing `try`/`catch`. -/
theorem C3_getAll_fails_soft :
    (∀ ls, ls.semesters = .malformed → SemesterAPI.getAllBrowser ls = ([], ls))
    ∧ (∀ ls, ls.subjects = .malformed → SubjectAPI.getAllBrowser ls = ([], ls))
    ∧ (∀ ls, PDFAPI.getAllBrowser ls = ([], ls))
    ∧ (∀ db gen saveOk e f2,
        SemesterAPI.getAllServer db gen saveOk (some e) f2 = ([], db))
    ∧ (∀ gen saveOk e,
        (SemesterAPI.getAllServer [] gen saveOk none (some e)).1 = [])
    ∧ (∀ db e, SubjectAPI.getAllServer db (some e) = ([], db))
    ∧ (∀ db e, PDFAPI.getAllServer true db (some e) = ([], db))
    ∧ (∀ db f, PDFAPI.getAllServer false db f = ([], db)) := by
  refine ⟨?_, ?_, ?_, ?_, ?_, ?_, ?_, ?_⟩
  · intro ls h
    unfold SemesterAPI.getAllBrowser
    rw [h]
  · intro ls h
    unfold SubjectAPI.getAllBrowser
    rw [h]
  · intro ls
    rfl
  · intro db gen saveOk e f2
    rfl
  · intro gen saveOk e
    rfl
  · intro db e
    rfl
  · intro db e
    rfl
  · intro db f
    rfl

theorem C3_getAll_fails_soft_witness :
    SemesterAPI.getAllBrowser ⟨.malformed, .malformed, .absent⟩
      = ([], ⟨.malformed, .malformed, .absent⟩)
    ∧ SubjectAPI.getAllBrowser ⟨.malformed, .malformed, .absent⟩
      = ([], ⟨.malformed, .malformed, .absent⟩)
    ∧ SemesterAPI.getAllServer [⟨"a", "A", 1⟩] (fun _ => "g") (fun _ => true)
        (some "down") none = ([], [⟨"a", "A", 1⟩])
    ∧ (SemesterAPI.getAllServer [] (fun _ => "g") (fun _ => true)
        none (some "down")).1 = [] :=
  ⟨C3_getAll_fails_soft.1 _ rfl,
   C3_getAll_fails_soft.2.1 _ rfl,
   C3_getAll_fails_soft.2.2.2.1 _ (fun _ => "g") (fun _ => true) "down" none,
   C3_getAll_fails_soft.2.2.2.2.1 (fun _ => "g") (fun _ => true) "down"⟩

/-- Claim C7: `SemesterAPI.add` called without an order (server path) runs
`findOne().sort({order: -1})` to fetch the highest-order Semester — whose
order bounds every stored order — and inserts the new Semester with that
order plus one, or with order `1` when the collection is empty; hence for
a sequential caller the added order exceeds every order present before
the call. -/
theorem C7_add_auto_order (name newId : String) (db : List SemesterRec) :
    (∀ h, semesterFindOneHighest db = some h →
      (∀ r ∈ db, r.order ≤ h.order)
      ∧ SemesterAPI.addServer name none newId db none none
          = (some ⟨newId, name, h.order + 1⟩, db ++ [⟨newId, name, h.order + 1⟩]))
    ∧ (db = [] →
      SemesterAPI.addServer name none newId db none none
        = (some ⟨newId, name, 1⟩, [⟨newId, name, 1⟩]))
    ∧ (∀ s, (SemesterAPI.addServer name none newId db none none).1 = some s →
      ∀ r ∈ db, r.order < s.order) := by
  rcases hh : semesterFindOneHighest db with _ | ⟨h0⟩
  · have hdb : db = [] := semesterFindOneHighest_none db hh
    subst hdb
    refine ⟨fun h hhs => Option.noConfusion hhs, fun _ => ?_, fun s hs r hr => ?_⟩
    · unfold SemesterAPI.addServer
      simp [hh]
    · exact absurd hr (List.not_mem_nil _)
  · have heq : SemesterAPI.addServer name none newId db none none
        = (some ⟨newId, name, h0.order + 1⟩, db ++ [⟨newId, name, h0.order + 1⟩]) := by
      unfold SemesterAPI.addServer
      simp [hh]
    refine ⟨fun h hhs => ?_, fun hdb => ?_, fun s hs r hr => ?_⟩
    · have hh0 : h = h0 := (Option.some_inj.mp hhs).symm
      subst hh0
      exact ⟨semesterFindOneHighest_max db h hh, heq⟩
    · subst hdb
      exact absurd hh (by unfold semesterFindOneHighest; simp)
    · rw [heq] at hs
      have hs0 : s = ⟨newId, name, h0.order + 1⟩ := Option.some_inj.mp hs.symm
      subst hs0
      exact lt_of_le_of_lt (semesterFindOneHighest_max db h0 hh r hr) (by simp)

theorem C7_add_auto_order_witness :
    SemesterAPI.addServer "Semester 9" none "q1w2e3r" [⟨"a", "Semester 3", 3⟩]
      none none
      = (some ⟨"q1w2e3r", "Semester 9", 4⟩,
         [⟨"a", "Semester 3", 3⟩, ⟨"q1w2e3r", "Semester 9", 4⟩])
    ∧ SemesterAPI.addServer "Semester 1" none "z9x8c7v" [] none none
      = (some ⟨"z9x8c7v", "Semester 1", 1⟩, [⟨"z9x8c7v", "Semester 1", 1⟩])
    ∧ (3 : Int) < 4 :=
  ⟨((C7_add_auto_order "Semester 9" "q1w2e3r" [⟨"a", "Semester 3", 3⟩]).1
      ⟨"a", "Semester 3", 3⟩ (by decide)).2,
   (C7_add_auto_order "Semester 1" "z9x8c7v" []).2.1 rfl,
   (C7_add_auto_order "Semester 9" "q1w2e3r" [⟨"a", "Semester 3", 3⟩]).2.2
     ⟨"q1w2e3r", "Semester 9", 4⟩ (by decide) ⟨"a", "Semester 3", 3⟩ (by decide)⟩

theorem map_update_no_match (id : String) (d : SemesterPatch) :
    ∀ m : List SemesterType, (∀ s ∈ m, s.id ≠ id) →
      (m.map fun sem => if sem.id = id then spreadSemester sem d else sem) = m
  | [], _ => rfl
  | a :: as, h => by
    rw [List.map_cons, if_neg (h a (List.mem_cons_self a as)),
      map_update_no_match id d as fun x hx => h x (List.mem_cons_of_mem a hx)]

/-- Claim C10: on the browser fallback path, `SemesterAPI.update(id, data)`
and `SemesterAPI.delete(id)` affect at most the record whose identifier is
`id`: the written-back `semesters` value keeps every differently-identified
record unchanged at its position (update) or in relative order as a
sublist (delete), other keys are untouched, and with no matching record
the stored sequence is written back equal to what it was. -/
theorem C10_browser_frame :
    (∀ id d ls l, ls.semesters = .val l →
      (SemesterAPI.updateBrowser id d ls).2
        = ls.setSemesters
            (.val (l.map fun x => if x.id = id then spreadSemester x d else x)))
    ∧ (∀ id d (l : List SemesterType) (i : Nat) s, l[i]? = some s → s.id ≠ id →
      (l.map fun x => if x.id = id then spreadSemester x d else x)[i]? = some s)
    ∧ (∀ id d ls l, ls.semesters = .val l → (∀ s ∈ l, s.id ≠ id) →
      (SemesterAPI.updateBrowser id d ls).2 = ls)
    ∧ (∀ id ls l, ls.semesters = .val l →
      (SemesterAPI.deleteBrowser id ls).2
        = ls.setSemesters (.val (l.filter fun s => s.id ≠ id)))
    ∧ (∀ id (l : List SemesterType), (l.filter fun s => s.id ≠ id).Sublist l)
    ∧ (∀ id (l : List SemesterType) s, s ∈ l → s.id ≠ id →
      s ∈ l.filter fun x => x.id ≠ id)
    ∧ (∀ id ls l, ls.semesters = .val l → (∀ s ∈ l, s.id ≠ id) →
      (SemesterAPI.deleteBrowser id ls).2 = ls) := by
  refine ⟨?_, ?_, ?_, ?_, ?_, ?_, ?_⟩
  · intro id d ls l h
    unfold SemesterAPI.updateBrowser
    rw [h]
  · intro id d l i s hi hs
    rw [List.getElem?_map, hi, Option.map_some']
    rw [if_neg hs]
  · intro id d ls l h hno
    unfold SemesterAPI.updateBrowser
    rw [h]
    show ls.setSemesters
      (.val (l.map fun sem => if sem.id = id then spreadSemester sem d else sem)) = ls
    rw [map_update_no_match id d l hno, ← h]
    rfl
  · intro id ls l h
    unfold SemesterAPI.deleteBrowser
    rw [h]
  · intro id l
    exact List.filter_sublist l
  · intro id l s hs hid
    rw [List.mem_filter]
    exact ⟨hs, by simp [hid]⟩
  · intro id ls l h hno
    unfold SemesterAPI.deleteBrowser
    rw [h]
    show ls.setSemesters (.val (l.filter fun sem => sem.id ≠ id)) = ls
    rw [List.filter_eq_self.mpr fun a ha => by simpa using hno a ha, ← h]
    rfl

theorem C10_browser_frame_witness :
    (SemesterAPI.updateBrowser "zz" ⟨none, some "N", none⟩
        ⟨.val [⟨"a7b8c9d", "A", 1⟩], .absent, .absent⟩).2
      = ⟨.val [⟨"a7b8c9d", "A", 1⟩], .absent, .absent⟩
    ∧ ([(⟨"a7b8c9d", "A", 1⟩ : SemesterType)].map
        fun x => if x.id = "zz" then spreadSemester x ⟨none, some "N", none⟩ else x)[0]?
      = some ⟨"a7b8c9d", "A", 1⟩
    ∧ (SemesterAPI.deleteBrowser "zz"
        ⟨.val [⟨"a7b8c9d", "A", 1⟩], .absent, .absent⟩).2
      = ⟨.val [⟨"a7b8c9d", "A", 1⟩], .absent, .absent⟩ :=
  ⟨C10_browser_frame.2.2.1 "zz" ⟨none, some "N", none⟩ _ _ rfl (by decide),
   C10_browser_frame.2.1 "zz" ⟨none, some "N", none⟩ _ 0 _ rfl (by decide),
   C10_browser_frame.2.2.2.2.2.2 "zz" _ _ rfl (by decide)⟩

theorem map_update_no_match_subject (id : String) (d : SubjectPatch) :
    ∀ m : List SubjectType, (∀ s ∈ m, s.id ≠ id) →
      (m.map fun sub => if sub.id = id then spreadSubject sub d else sub) = m
  | [], _ => rfl
  | a :: as, h => by
    rw [List.map_cons, if_neg (h a (List.mem_cons_self a as)),
      map_update_no_match_subject id d as fun x hx => h x (List.mem_cons_of_mem a hx)]

/-- Claim C5: for every entity kind, `update(id, partialFields)` merges the
given fields into the record whose identifier matches — a field absent
from the patch keeps its previous value (`getD`), every other record is
untouched — and when no record matches it performs no change yet still
returns `true`.  (On the server path the patch is the entity's mutable
fields; a patch `id` field would only become a stray document attribute
that no read surfaces, so the server conjuncts describe the name / order /
reference fields, which is what the source merges into the document.) -/
theorem C5_update_merge :
    (∀ id d ls l, ls.semesters = .val l →
      SemesterAPI.updateBrowser id d ls
        = (true, ls.setSemesters
            (.val (l.map fun sem => if sem.id = id then spreadSemester sem d else sem))))
    ∧ (∀ id d ls, ls.semesters = .absent →
      SemesterAPI.updateBrowser id d ls = (true, ls))
    ∧ (∀ id d ls l, ls.semesters = .val l → (∀ s ∈ l, s.id ≠ id) →
      SemesterAPI.updateBrowser id d ls = (true, ls))
    ∧ (∀ (s : SemesterType) (d : SemesterPatch),
      (d.id = none → (spreadSemester s d).id = s.id)
      ∧ (d.name = none → (spreadSemester s d).name = s.name)
      ∧ (d.order = none → (spreadSemester s d).order = s.order))
    ∧ (∀ id d pre r post, r._id = id → (∀ x ∈ pre, x._id ≠ id) →
      SemesterAPI.updateServer id d (pre ++ r :: post) none
        = (true, pre ++ ⟨r._id, d.name.getD r.name, d.order.getD r.order⟩ :: post))
    ∧ (∀ id d db, (∀ r ∈ db, r._id ≠ id) →
      SemesterAPI.updateServer id d db none = (true, db))
    ∧ (∀ id d ls l, ls.subjects = .val l →
      SubjectAPI.updateBrowser id d ls
        = (true, ls.setSubjects
            (.val (l.map fun sub => if sub.id = id then spreadSubject sub d else sub))))
    ∧ (∀ id d ls l, ls.subjects = .val l → (∀ s ∈ l, s.id ≠ id) →
      SubjectAPI.updateBrowser id d ls = (true, ls))
    ∧ (∀ id d pre r post, r._id = id → (∀ x ∈ pre, x._id ≠ id) →
      SubjectAPI.updateServer id d (pre ++ r :: post) none
        = (true, pre ++ ⟨r._id, d.name.getD r.name, d.semesterId.getD r.semesterId⟩ :: post))
    ∧ (∀ id d db, (∀ r ∈ db, r._id ≠ id) →
      SubjectAPI.updateServer id d db none = (true, db))
    ∧ (∀ id d pre r post, r._id = id → (∀ x ∈ pre, x._id ≠ id) →
      PDFAPI.updateServer id d (pre ++ r :: post) none
        = (true, pre ++ ⟨r._id, d.title.getD r.title, d.fileName.getD r.fileName,
            d.fileUrl.getD r.fileUrl, d.semesterId.getD r.semesterId,
            d.subjectId.getD r.subjectId, d.createdAt.getD r.createdAt⟩ :: post))
    ∧ (∀ id d db, (∀ r ∈ db, r._id ≠ id) →
      PDFAPI.updateServer id d db none = (true, db)) := by
  refine ⟨?_, ?_, ?_, ?_, ?_, ?_, ?_, ?_, ?_, ?_, ?_, ?_⟩
  · intro id d ls l h
    unfold SemesterAPI.updateBrowser
    rw [h]
  · intro id d ls h
    unfold SemesterAPI.updateBrowser
    rw [h]
  · intro id d ls l h hno
    unfold SemesterAPI.updateBrowser
    rw [h]
    show (true, ls.setSemesters
      (.val (l.map fun sem => if sem.id = id then spreadSemester sem d else sem))) = (true, ls)
    rw [map_update_no_match id d l hno, ← h]
    rfl
  · intro s d
    refine ⟨fun h => ?_, fun h => ?_, fun h => ?_⟩ <;>
      simp [spreadSemester, h]
  · intro id d pre r post hr hpre
    unfold SemesterAPI.updateServer
    rw [semesterUpdateFirst_append pre r post id d hpre hr]
  · intro id d db hno
    unfold SemesterAPI.updateServer
    rw [semesterUpdateFirst_no_match db id d hno]
  · intro id d ls l h
    unfold SubjectAPI.updateBrowser
    rw [h]
  · intro id d ls l h hno
    unfold SubjectAPI.updateBrowser
    rw [h]
    show (true, ls.setSubjects
      (.val (l.map fun sub => if sub.id = id then spreadSubject sub d else sub))) = (true, ls)
    rw [map_update_no_match_subject id d l hno, ← h]
    rfl
  · intro id d pre r post hr hpre
    unfold SubjectAPI.updateServer
    rw [subjectUpdateFirst_append pre r post id d hpre hr]
  · intro id d db hno
    unfold SubjectAPI.updateServer
    rw [subjectUpdateFirst_no_match db id d hno]
  · intro id d pre r post hr hpre
    unfold PDFAPI.updateServer
    rw [pdfUpdateFirst_append pre r post id d hpre hr]
  · intro id d db hno
    unfold PDFAPI.updateServer
    rw [pdfUpdateFirst_no_match db id d hno]

theorem C5_update_merge_witness :
    SemesterAPI.updateBrowser "a1a1a1a" ⟨none, some "Sem IX", none⟩
        ⟨.val [⟨"a1a1a1a", "Semester 9", 9⟩], .absent, .absent⟩
      = (true, ⟨.val [⟨"a1a1a1a", "Sem IX", 9⟩], .absent, .absent⟩)
    ∧ SemesterAPI.updateBrowser "zz" ⟨none, some "N", none⟩
        ⟨.val [⟨"a1a1a1a", "Semester 9", 9⟩], .absent, .absent⟩
      = (true, ⟨.val [⟨"a1a1a1a", "Semester 9", 9⟩], .absent, .absent⟩)
    ∧ (spreadSemester ⟨"a", "A", 1⟩ ⟨none, some "B", none⟩).order = 1
    ∧ SemesterAPI.updateServer "b2b2b2b" ⟨none, none, some 7⟩
        [⟨"a1a1a1a", "A", 1⟩, ⟨"b2b2b2b", "B", 2⟩] none
      = (true, [⟨"a1a1a1a", "A", 1⟩, ⟨"b2b2b2b", "B", 7⟩])
    ∧ SubjectAPI.updateServer "zz" ⟨none, some "N", none⟩
        [⟨"a1a1a1a", "A", "s1"⟩] none
      = (true, [⟨"a1a1a1a", "A", "s1"⟩])
    ∧ PDFAPI.updateServer "p1" ⟨none, some "T2", none, none, none, none, none⟩
        [⟨"p1", "T", "f", "u", "s", "su", 5⟩] none
      = (true, [⟨"p1", "T2", "f", "u", "s", "su", 5⟩]) := by
  refine ⟨?_, ?_, ?_, ?_, ?_, ?_⟩
  · have h := C5_update_merge.1 "a1a1a1a" ⟨none, some "Sem IX", none⟩
      ⟨.val [⟨"a1a1a1a", "Semester 9", 9⟩], .absent, .absent⟩
      [⟨"a1a1a1a", "Semester 9", 9⟩] rfl
    rw [h]
    rfl
  · exact C5_update_merge.2.2.1 "zz" ⟨none, some "N", none⟩
      ⟨.val [⟨"a1a1a1a", "Semester 9", 9⟩], .absent, .absent⟩
      [⟨"a1a1a1a", "Semester 9", 9⟩] rfl (by decide)
  · exact (C5_update_merge.2.2.2.1 ⟨"a", "A", 1⟩ ⟨none, some "B", none⟩).2.2 rfl
  · have h := C5_update_merge.2.2.2.2.1 "b2b2b2b" ⟨none, none, some 7⟩
      [⟨"a1a1a1a", "A", 1⟩] ⟨"b2b2b2b", "B", 2⟩ [] rfl (by decide)
    rw [List.singleton_append] at h
    rw [h]
    rfl
  · exact C5_update_merge.2.2.2.2.2.2.2.2.2.1 "zz" ⟨none, some "N", none⟩
      [⟨"a1a1a1a", "A", "s1"⟩] (by decide)
  · have h := C5_update_merge.2.2.2.2.2.2.2.2.2.2.1 "p1"
      ⟨none, some "T2", none, none, none, none, none⟩
      [] ⟨"p1", "T", "f", "u", "s", "su", 5⟩ [] rfl (by decide)
    rw [List.nil_append] at h
    rw [h]
    rfl

theorem semesterGetAllServer_not_mem (id : String) (db : List SemesterRec)
    (gen : Nat → String) (saveOk : Nat → Bool)
    (hids : ∀ r ∈ db, r._id ≠ id) (hgen : ∀ i, gen i ≠ id) :
    id ∉ (SemesterAPI.getAllServer db gen saveOk none none).1.map SemesterType.id := by
  intro hmem
  unfold SemesterAPI.getAllServer at hmem
  by_cases h0 : (semesterFind db).length = 0
  · rw [if_pos h0] at hmem
    simp only [List.mem_map] at hmem
    rcases hmem with ⟨t, ht, hts⟩
    rcases ht with ⟨r, hr, hrt⟩
    have hrid : r._id = id := by
      rw [← hrt, semesterOut_eq] at hts
      exact hts
    have hrdb : r ∈ seedLoop gen saveOk db := by
      have := hr
      unfold semesterFind at this
      exact (List.mem_insertionSort _).mp this
    rcases mem_seedLoop gen saveOk db r hrdb with h | ⟨i, hi⟩
    · exact hids r h hrid
    · exact hgen i (hi ▸ hrid)
  · rw [if_neg h0] at hmem
    simp only [List.mem_map] at hmem
    rcases hmem with ⟨t, ht, hts⟩
    rcases ht with ⟨r, hr, hrt⟩
    have hrid : r._id = id := by
      rw [← hrt, semesterOut_eq] at hts
      exact hts
    have hrdb : r ∈ db := by
      have := hr
      unfold semesterFind at this
      exact (List.mem_insertionSort _).mp this
    exact hids r hrdb hrid

/-- Claim C8: for every entity kind and identifier, `delete(id)` followed
by `getAll` yields no entity whose identifier equals `id` — on the browser
path unconditionally, and on the server path whenever the collection's
`_id` values are distinct (MongoDB's `_id` key constraint) and, for
Semester, the identifiers generated by a subsequent re-seed are fresh. -/
theorem C8_delete_then_getAll :
    (∀ id ls,
      id ∉ (SemesterAPI.getAllBrowser
        (SemesterAPI.deleteBrowser id ls).2).1.map SemesterType.id)
    ∧ (∀ id ls,
      id ∉ (SubjectAPI.getAllBrowser
        (SubjectAPI.deleteBrowser id ls).2).1.map SubjectType.id)
    ∧ (∀ id db gen saveOk, (db.map SemesterRec._id).Nodup → (∀ i, gen i ≠ id) →
      id ∉ (SemesterAPI.getAllServer
        (SemesterAPI.deleteServer id db none).2 gen saveOk none none).1.map
          SemesterType.id)
    ∧ (∀ id db, (db.map SubjectRec._id).Nodup →
      id ∉ (SubjectAPI.getAllServer
        (SubjectAPI.deleteServer id db none).2 none).1.map SubjectType.id)
    ∧ (∀ id db modelOk, (db.map PDFRec._id).Nodup →
      id ∉ (PDFAPI.getAllServer modelOk
        (PDFAPI.deleteServer id db none).2 none).1.map PDFType.id) := by
  refine ⟨?_, ?_, ?_, ?_, ?_⟩
  · intro id ls
    rcases h : ls.semesters with _ | _ | l
    · simp [SemesterAPI.deleteBrowser, SemesterAPI.getAllBrowser, h]
    · simp [SemesterAPI.deleteBrowser, SemesterAPI.getAllBrowser, h]
    · intro hmem
      simp only [SemesterAPI.deleteBrowser, SemesterAPI.getAllBrowser, h,
        LocalStorage.setSemesters, List.mem_map] at hmem
      rcases hmem with ⟨t, ht, hts⟩
      rcases List.mem_filter.mp ht with ⟨_, htf⟩
      rw [hts] at htf
      simp at htf
  · intro id ls
    rcases h : ls.subjects with _ | _ | l
    · simp [SubjectAPI.deleteBrowser, SubjectAPI.getAllBrowser, h]
    · simp [SubjectAPI.deleteBrowser, SubjectAPI.getAllBrowser, h]
    · intro hmem
      simp only [SubjectAPI.deleteBrowser, SubjectAPI.getAllBrowser, h,
        LocalStorage.setSubjects, List.mem_map] at hmem
      rcases hmem with ⟨t, ht, hts⟩
      rcases List.mem_filter.mp ht with ⟨_, htf⟩
      rw [hts] at htf
      simp at htf
  · intro id db gen saveOk hnd hgen
    have h2 : (SemesterAPI.deleteServer id db none).2 = semesterDeleteFirst db id := rfl
    rw [h2]
    exact semesterGetAllServer_not_mem id (semesterDeleteFirst db id) gen saveOk
      (semesterDeleteFirst_ids db id hnd) hgen
  · intro id db hnd
    intro hmem
    have h2 : (SubjectAPI.deleteServer id db none).2 = subjectDeleteFirst db id := rfl
    rw [h2] at hmem
    unfold SubjectAPI.getAllServer at hmem
    simp only [List.mem_map] at hmem
    rcases hmem with ⟨t, ht, hts⟩
    rcases ht with ⟨r, hr, hrt⟩
    have hrid : r._id = id := by
      rw [← hrt] at hts
      exact hts
    have hrdb : r ∈ subjectDeleteFirst db id := by
      have := hr
      unfold subjectFind at this
      exact (List.mem_insertionSort _).mp this
    exact subjectDeleteFirst_ids db id hnd r hrdb hrid
  · intro id db modelOk hnd
    intro hmem
    have h2 : (PDFAPI.deleteServer id db none).2 = pdfDeleteFirst db id := rfl
    rw [h2] at hmem
    unfold PDFAPI.getAllServer at hmem
    rcases modelOk with _ | _
    · simp at hmem
    · simp only [Bool.not_true, Bool.false_eq_true, if_false, List.mem_map] at hmem
      rcases hmem with ⟨t, ht, hts⟩
      rcases ht with ⟨r, hr, hrt⟩
      have hrid : r._id = id := by
        rw [← hrt] at hts
        exact hts
      have hrdb : r ∈ pdfDeleteFirst db id := by
        have := hr
        unfold pdfFind at this
        exact (List.mem_insertionSort _).mp this
      exact pdfDeleteFirst_ids db id hnd r hrdb hrid

theorem C8_delete_then_getAll_witness :
    "a1a1a1a" ∉ (SemesterAPI.getAllBrowser
        (SemesterAPI.deleteBrowser "a1a1a1a"
          ⟨.val [⟨"a1a1a1a", "A", 1⟩, ⟨"b2b2b2b", "B", 2⟩], .absent, .absent⟩).2).1.map
        SemesterType.id
    ∧ "a1a1a1a" ∉ (SemesterAPI.getAllServer
        (SemesterAPI.deleteServer "a1a1a1a"
          [⟨"a1a1a1a", "A", 1⟩, ⟨"b2b2b2b", "B", 2⟩] none).2
        (fun _ => "fresh01") (fun _ => true) none none).1.map SemesterType.id
    ∧ "s7s7s7s" ∉ (SubjectAPI.getAllServer
        (SubjectAPI.deleteServer "s7s7s7s" [⟨"s7s7s7s", "S", "sem1"⟩] none).2
        none).1.map SubjectType.id
    ∧ "p9p9p9p" ∉ (PDFAPI.getAllServer true
        (PDFAPI.deleteServer "p9p9p9p" [⟨"p9p9p9p", "T", "f", "u", "s", "su", 5⟩]
          none).2 none).1.map PDFType.id :=
  ⟨C8_delete_then_getAll.1 "a1a1a1a" _,
   C8_delete_then_getAll.2.2.1 "a1a1a1a" [⟨"a1a1a1a", "A", 1⟩, ⟨"b2b2b2b", "B", 2⟩]
     (fun _ => "fresh01") (fun _ => true) (by decide)
     (fun i => by show ("fresh01" : String) ≠ "a1a1a1a"; decide),
   C8_delete_then_getAll.2.2.2.1 "s7s7s7s" [⟨"s7s7s7s", "S", "sem1"⟩] (by decide),
   C8_delete_then_getAll.2.2.2.2 "p9p9p9p" [⟨"p9p9p9p", "T", "f", "u", "s", "su", 5⟩]
     true (by decide)⟩

theorem semesterGetAllServer_empty (gen : Nat → String) (saveOk : Nat → Bool) :
    SemesterAPI.getAllServer [] gen saveOk none none
      = ((semesterFind (seedLoop gen saveOk [])).map semesterOut,
         seedLoop gen saveOk []) := rfl

/-- Claim C2: on the server path, `SemesterAPI.getAll` on an observed-empty
collection creates exactly eight Semesters named "Semester 1".."Semester 8"
with order 1..8 — one save per entity, a failed save being skipped
independently of the others — then re-reads and returns the re-read
collection; with a non-empty collection nothing is created, and the
browser path is a pure read that creates nothing. -/
theorem C2_seeder :
    (∀ gen saveOk, (∀ i, saveOk i = true) →
      SemesterAPI.getAllServer [] gen saveOk none none
        = ([⟨gen 0, "Semester 1", 1⟩, ⟨gen 1, "Semester 2", 2⟩,
            ⟨gen 2, "Semester 3", 3⟩, ⟨gen 3, "Semester 4", 4⟩,
            ⟨gen 4, "Semester 5", 5⟩, ⟨gen 5, "Semester 6", 6⟩,
            ⟨gen 6, "Semester 7", 7⟩, ⟨gen 7, "Semester 8", 8⟩],
           [⟨gen 0, "Semester 1", 1⟩, ⟨gen 1, "Semester 2", 2⟩,
            ⟨gen 2, "Semester 3", 3⟩, ⟨gen 3, "Semester 4", 4⟩,
            ⟨gen 4, "Semester 5", 5⟩, ⟨gen 5, "Semester 6", 6⟩,
            ⟨gen 6, "Semester 7", 7⟩, ⟨gen 7, "Semester 8", 8⟩]))
    ∧ (∀ gen saveOk,
      SemesterAPI.getAllServer [] gen saveOk none none
        = ((semesterFind (DEFAULT_SEMESTERS.enum.filterMap fun p =>
              if saveOk p.1 then some ⟨gen p.1, p.2.1, p.2.2⟩ else none)).map
                semesterOut,
           DEFAULT_SEMESTERS.enum.filterMap fun p =>
              if saveOk p.1 then some ⟨gen p.1, p.2.1, p.2.2⟩ else none))
    ∧ (∀ db gen saveOk f1 f2, db ≠ [] →
      (SemesterAPI.getAllServer db gen saveOk f1 f2).2 = db)
    ∧ (∀ db gen saveOk, db ≠ [] →
      SemesterAPI.getAllServer db gen saveOk none none
        = ((semesterFind db).map semesterOut, db))
    ∧ (∀ ls, (SemesterAPI.getAllBrowser ls).2 = ls) := by
  have hlen : ∀ (db : List SemesterRec), db ≠ [] →
      ¬(semesterFind db).length = 0 := by
    intro db hne
    unfold semesterFind
    rw [List.length_insertionSort]
    simpa using hne
  refine ⟨?_, ?_, ?_, ?_, ?_⟩
  · intro gen saveOk hOk
    have hseed : seedLoop gen saveOk []
        = [⟨gen 0, "Semester 1", 1⟩, ⟨gen 1, "Semester 2", 2⟩,
           ⟨gen 2, "Semester 3", 3⟩, ⟨gen 3, "Semester 4", 4⟩,
           ⟨gen 4, "Semester 5", 5⟩, ⟨gen 5, "Semester 6", 6⟩,
           ⟨gen 6, "Semester 7", 7⟩, ⟨gen 7, "Semester 8", 8⟩] := by
      rw [seedLoop_eq_filterMap, List.nil_append]
      simp [DEFAULT_SEMESTERS, List.enum, List.enumFrom, hOk]
    have hsorted : List.Sorted semesterLE
        [⟨gen 0, "Semester 1", 1⟩, ⟨gen 1, "Semester 2", 2⟩,
         ⟨gen 2, "Semester 3", 3⟩, ⟨gen 3, "Semester 4", 4⟩,
         ⟨gen 4, "Semester 5", 5⟩, ⟨gen 5, "Semester 6", 6⟩,
         ⟨gen 6, "Semester 7", 7⟩, ⟨gen 7, "Semester 8", 8⟩] := by
      simp [List.sorted_cons, semesterLE]
    rw [semesterGetAllServer_empty, hseed]
    unfold semesterFind
    rw [hsorted.insertionSort_eq]
    simp [semesterOut_eq]
  · intro gen saveOk
    rw [semesterGetAllServer_empty, seedLoop_eq_filterMap, List.nil_append]
  · intro db gen saveOk f1 f2 hne
    unfold SemesterAPI.getAllServer
    rcases f1 with _ | e
    · rw [if_neg (hlen db hne)]
    · rfl
  · intro db gen saveOk hne
    unfold SemesterAPI.getAllServer
    rw [if_neg (hlen db hne)]
  · intro ls
    rcases h : ls.semesters <;> simp [SemesterAPI.getAllBrowser, h]

theorem C2_seeder_witness :
    SemesterAPI.getAllServer [] (fun _ => "g8f7d6s") (fun _ => true) none none
      = ([⟨"g8f7d6s", "Semester 1", 1⟩, ⟨"g8f7d6s", "Semester 2", 2⟩,
          ⟨"g8f7d6s", "Semester 3", 3⟩, ⟨"g8f7d6s", "Semester 4", 4⟩,
          ⟨"g8f7d6s", "Semester 5", 5⟩, ⟨"g8f7d6s", "Semester 6", 6⟩,
          ⟨"g8f7d6s", "Semester 7", 7⟩, ⟨"g8f7d6s", "Semester 8", 8⟩],
         [⟨"g8f7d6s", "Semester 1", 1⟩, ⟨"g8f7d6s", "Semester 2", 2⟩,
          ⟨"g8f7d6s", "Semester 3", 3⟩, ⟨"g8f7d6s", "Semester 4", 4⟩,
          ⟨"g8f7d6s", "Semester 5", 5⟩, ⟨"g8f7d6s", "Semester 6", 6⟩,
          ⟨"g8f7d6s", "Semester 7", 7⟩, ⟨"g8f7d6s", "Semester 8", 8⟩])
    ∧ SemesterAPI.getAllServer [⟨"a1a1a1a", "A", 1⟩] (fun _ => "g8f7d6s")
        (fun _ => true) none none
      = ([⟨"a1a1a1a", "A", 1⟩], [⟨"a1a1a1a", "A", 1⟩]) := by
  constructor
  · exact C2_seeder.1 (fun _ => "g8f7d6s") (fun _ => true) fun i => rfl
  · have h := C2_seeder.2.2.2.1 [⟨"a1a1a1a", "A", 1⟩] (fun _ => "g8f7d6s")
      (fun _ => true) (by decide)
    rw [h]
    rfl

/-- Claim C1, counterexample: in a browser environment with the
localStorage key `pdfs` holding one record, a Local-Fallback-Store-served
`getAll` would return that record, but `PDFAPI.getAll` returns `[]` —
`PDFAPI` is not served by the Local Fallback Store under `pdfs` (the
source has no localStorage branch in `PDFAPI` at all). -/
theorem C1_counterexample :
    specFallbackRead
        (StoredVal.val [(⟨"p1p1p1p", "Notes", "n.pdf", "u", "s1", "su1", 5⟩ : PDFType)])
      = [⟨"p1p1p1p", "Notes", "n.pdf", "u", "s1", "su1", 5⟩]
    ∧ (PDFAPI.getAllBrowser
        ⟨.absent, .absent,
         .val [⟨"p1p1p1p", "Notes", "n.pdf", "u", "s1", "su1", 5⟩]⟩).1 = []
    ∧ ([(⟨"p1p1p1p", "Notes", "n.pdf", "u", "s1", "su1", 5⟩ : PDFType)] : List PDFType)
        ≠ [] :=
  ⟨rfl, rfl, by decide⟩

/-- Claim C1, amended: in a browser environment the Semester and Subject
operations are served by the Local Fallback Store under the collection
keys `semesters` and `subjects` (reads return the stored sequence, writes
touch only the kind's own key), but `PDFAPI` has no browser fallback: its
`getAll` returns the empty sequence, its mutations fail soft, and none of
its operations reads or writes any localStorage key, `pdfs` included. -/
theorem C1_amended_fallback :
    (∀ ls, (SemesterAPI.getAllBrowser ls).1 = specFallbackRead ls.semesters
      ∧ (SemesterAPI.getAllBrowser ls).2 = ls)
    ∧ (∀ ls, (SubjectAPI.getAllBrowser ls).1 = specFallbackRead ls.subjects
      ∧ (SubjectAPI.getAllBrowser ls).2 = ls)
    ∧ (∀ n o i ls l, ls.semesters = .val l →
      (SemesterAPI.addBrowser n o i ls).2
        = ls.setSemesters (.val (l ++ [⟨i, n, jsOrElse o 0⟩])))
    ∧ (∀ n o i ls, ((SemesterAPI.addBrowser n o i ls).2).subjects = ls.subjects
      ∧ ((SemesterAPI.addBrowser n o i ls).2).pdfs = ls.pdfs)
    ∧ (∀ id d ls, ((SemesterAPI.updateBrowser id d ls).2).subjects = ls.subjects
      ∧ ((SemesterAPI.updateBrowser id d ls).2).pdfs = ls.pdfs)
    ∧ (∀ id ls, ((SemesterAPI.deleteBrowser id ls).2).subjects = ls.subjects
      ∧ ((SemesterAPI.deleteBrowser id ls).2).pdfs = ls.pdfs)
    ∧ (∀ n sid i ls, ((SubjectAPI.addBrowser n sid i ls).2).semesters = ls.semesters
      ∧ ((SubjectAPI.addBrowser n sid i ls).2).pdfs = ls.pdfs)
    ∧ (∀ id d ls, ((SubjectAPI.updateBrowser id d ls).2).semesters = ls.semesters
      ∧ ((SubjectAPI.updateBrowser id d ls).2).pdfs = ls.pdfs)
    ∧ (∀ id ls, ((SubjectAPI.deleteBrowser id ls).2).semesters = ls.semesters
      ∧ ((SubjectAPI.deleteBrowser id ls).2).pdfs = ls.pdfs)
    ∧ (∀ sid ls, (SubjectAPI.getBySemesterBrowser sid ls).1
        = (specFallbackRead ls.subjects).filter (fun sub => sub.semesterId = sid)
      ∧ (SubjectAPI.getBySemesterBrowser sid ls).2 = ls)
    ∧ (∀ ls, PDFAPI.getAllBrowser ls = ([], ls)
      ∧ PDFAPI.addBrowser ls = (none, ls)
      ∧ PDFAPI.updateBrowser ls = (false, ls)
      ∧ PDFAPI.deleteBrowser ls = (false, ls)) := by
  refine ⟨?_, ?_, ?_, ?_, ?_, ?_, ?_, ?_, ?_, ?_, ?_⟩
  · intro ls
    rcases h : ls.semesters <;>
      simp [SemesterAPI.getAllBrowser, specFallbackRead, h]
  · intro ls
    rcases h : ls.subjects <;>
      simp [SubjectAPI.getAllBrowser, specFallbackRead, h]
  · intro n o i ls l h
    unfold SemesterAPI.addBrowser
    rw [h]
  · intro n o i ls
    rcases h : ls.semesters <;>
      simp [SemesterAPI.addBrowser, LocalStorage.setSemesters, h]
  · intro id d ls
    rcases h : ls.semesters <;>
      simp [SemesterAPI.updateBrowser, LocalStorage.setSemesters, h]
  · intro id ls
    rcases h : ls.semesters <;>
      simp [SemesterAPI.deleteBrowser, LocalStorage.setSemesters, h]
  · intro n sid i ls
    rcases h : ls.subjects <;>
      simp [SubjectAPI.addBrowser, LocalStorage.setSubjects, h]
  · intro id d ls
    rcases h : ls.subjects <;>
      simp [SubjectAPI.updateBrowser, LocalStorage.setSubjects, h]
  · intro id ls
    rcases h : ls.subjects <;>
      simp [SubjectAPI.deleteBrowser, LocalStorage.setSubjects, h]
  · intro sid ls
    rcases h : ls.subjects <;>
      simp [SubjectAPI.getBySemesterBrowser, specFallbackRead, h]
  · intro ls
    exact ⟨rfl, rfl, rfl, rfl⟩

theorem C1_amended_fallback_witness :
    (SemesterAPI.addBrowser "Semester 9" (some 9) "n3w1d2x"
        ⟨.val [⟨"a1a1a1a", "A", 1⟩], .absent, .absent⟩).2
      = ⟨.val [⟨"a1a1a1a", "A", 1⟩, ⟨"n3w1d2x", "Semester 9", 9⟩],
         .absent, .absent⟩ := by
  have h := C1_amended_fallback.2.2.1 "Semester 9" (some 9) "n3w1d2x"
    ⟨.val [⟨"a1a1a1a", "A", 1⟩], .absent, .absent⟩ [⟨"a1a1a1a", "A", 1⟩] rfl
  rw [h]
  rfl

/-- Claim C4, counterexample: a browser `semesters` key holding two records
in descending order — `SemesterAPI.getAll` returns them exactly as stored,
which is not sorted by the canonical (order, name) key. -/
theorem C4_counterexample :
    (SemesterAPI.getAllBrowser
        ⟨.val [⟨"b2b2b2b", "B", 2⟩, ⟨"a1a1a1a", "A", 1⟩], .absent, .absent⟩).1
      = [⟨"b2b2b2b", "B", 2⟩, ⟨"a1a1a1a", "A", 1⟩]
    ∧ ¬ List.Sorted semesterTypeLE
        [(⟨"b2b2b2b", "B", 2⟩ : SemesterType), ⟨"a1a1a1a", "A", 1⟩] :=
  ⟨rfl, by decide⟩

/-- Claim C4, amended: on the remote (server) path every kind's `getAll`
(and `getBySemester`) returns the entities sorted by the kind's canonical
sort key — Semester by order then name, Subject by name, Resource by
creation time descending — but the browser/localStorage path of
`SemesterAPI.getAll` and `SubjectAPI.getAll` returns the stored sequence
unchanged, in stored order, without sorting. -/
theorem C4_amended_sorting :
    (∀ db gen saveOk, List.Sorted semesterTypeLE
      (SemesterAPI.getAllServer db gen saveOk none none).1)
    ∧ (∀ db, List.Sorted subjectTypeLE (SubjectAPI.getAllServer db none).1)
    ∧ (∀ sid db, List.Sorted subjectTypeLE
      (SubjectAPI.getBySemesterServer sid db none).1)
    ∧ (∀ modelOk db, List.Sorted pdfTypeGE (PDFAPI.getAllServer modelOk db none).1)
    ∧ (∀ ls l, ls.semesters = .val l → (SemesterAPI.getAllBrowser ls).1 = l)
    ∧ (∀ ls l, ls.subjects = .val l → (SubjectAPI.getAllBrowser ls).1 = l) := by
  refine ⟨?_, ?_, ?_, ?_, ?_, ?_⟩
  · intro db gen saveOk
    unfold SemesterAPI.getAllServer
    by_cases h0 : (semesterFind db).length = 0
    · rw [if_pos h0]
      exact sorted_map_semesterOut
        (List.sorted_insertionSort semesterLE (seedLoop gen saveOk db))
    · rw [if_neg h0]
      exact sorted_map_semesterOut (List.sorted_insertionSort semesterLE db)
  · intro db
    exact sorted_map_subjectOut (List.sorted_insertionSort subjectLE db)
  · intro sid db
    exact sorted_map_subjectOut (List.sorted_insertionSort subjectLE _)
  · intro modelOk db
    rcases modelOk with _ | _
    · exact List.sorted_nil
    · exact sorted_map_pdfOut (List.sorted_insertionSort pdfGE db)
  · intro ls l h
    unfold SemesterAPI.getAllBrowser
    rw [h]
  · intro ls l h
    unfold SubjectAPI.getAllBrowser
    rw [h]

theorem C4_amended_sorting_witness :
    (SemesterAPI.getAllBrowser
        ⟨.val [⟨"b2b2b2b", "B", 2⟩, ⟨"a1a1a1a", "A", 1⟩], .absent, .absent⟩).1
      = [⟨"b2b2b2b", "B", 2⟩, ⟨"a1a1a1a", "A", 1⟩]
    ∧ (SubjectAPI.getAllBrowser
        ⟨.absent, .val [⟨"s2s2s2s", "Zoology", "m1"⟩, ⟨"s1s1s1s", "Algebra", "m1"⟩],
         .absent⟩).1
      = [⟨"s2s2s2s", "Zoology", "m1"⟩, ⟨"s1s1s1s", "Algebra", "m1"⟩] :=
  ⟨C4_amended_sorting.2.2.2.2.1 _ _ rfl,
   C4_amended_sorting.2.2.2.2.2 _ _ rfl⟩

/-- Claim C6, counterexample: `generateId` draws from a random source with
no uniqueness check; if the drawn string collides with an existing
identifier ("k7f2q9z"), the browser `add` appends the new record anyway
and the store ends up with two records sharing one identifier — the
generated identifier is not distinct from every existing record's. -/
theorem C6_counterexample :
    (SemesterAPI.addBrowser "New" none "k7f2q9z"
        ⟨.val [⟨"k7f2q9z", "Old", 1⟩], .absent, .absent⟩).1
      = some ⟨"k7f2q9z", "New", 0⟩
    ∧ ((SemesterAPI.addBrowser "New" none "k7f2q9z"
        ⟨.val [⟨"k7f2q9z", "Old", 1⟩], .absent, .absent⟩).2).semesters
      = .val [⟨"k7f2q9z", "Old", 1⟩, ⟨"k7f2q9z", "New", 0⟩]
    ∧ ¬ ([(⟨"k7f2q9z", "Old", 1⟩ : SemesterType),
          ⟨"k7f2q9z", "New", 0⟩].map SemesterType.id).Nodup :=
  ⟨rfl, rfl, by decide⟩

/-- Claim C6, amended: for every entity kind, `add` persists the entity
under a freshly generated pseudorandom identifier and returns the
normalized entity on success, or `null` on a store fault (logged, never
raised); the generated identifier is not checked for uniqueness — on the
browser path a colliding record is appended alongside the existing one. -/
theorem C6_amended_add :
    (∀ n o i ls l, ls.semesters = .val l →
      SemesterAPI.addBrowser n o i ls
        = (some ⟨i, n, jsOrElse o 0⟩,
           ls.setSemesters (.val (l ++ [⟨i, n, jsOrElse o 0⟩]))))
    ∧ (∀ n o i ls, ls.semesters = .malformed →
      SemesterAPI.addBrowser n o i ls = (none, ls))
    ∧ (∀ n sid i ls l, ls.subjects = .val l →
      SubjectAPI.addBrowser n sid i ls
        = (some ⟨i, n, sid⟩, ls.setSubjects (.val (l ++ [⟨i, n, sid⟩]))))
    ∧ (∀ n i db (o : Int), ¬ o = 0 →
      SemesterAPI.addServer n (some o) i db none none
        = (some ⟨i, n, o⟩, db ++ [⟨i, n, o⟩]))
    ∧ (∀ n o i db e, SemesterAPI.addServer n o i db none (some e) = (none, db))
    ∧ (∀ n sid i db e, SubjectAPI.addServer n sid i db (some e) = (none, db))
    ∧ (∀ n sid i db, SubjectAPI.addServer n sid i db none
        = (some ⟨i, n, sid⟩, db ++ [⟨i, n, sid⟩]))
    ∧ (∀ t fn fu sid suid i now db e,
      PDFAPI.addServer t fn fu sid suid i now db (some e) = (none, db))
    ∧ (∀ t fn fu sid suid i now db,
      PDFAPI.addServer t fn fu sid suid i now db none
        = (some ⟨i, t, fn, fu, sid, suid, now⟩,
           db ++ [⟨i, t, fn, fu, sid, suid, now⟩])) := by
  refine ⟨?_, ?_, ?_, ?_, ?_, ?_, ?_, ?_, ?_⟩
  · intro n o i ls l h
    unfold SemesterAPI.addBrowser
    rw [h]
  · intro n o i ls h
    unfold SemesterAPI.addBrowser
    rw [h]
  · intro n sid i ls l h
    unfold SubjectAPI.addBrowser
    rw [h]
  · intro n i db o ho
    unfold SemesterAPI.addServer
    simp [ho]
  · intro n o i db e
    unfold SemesterAPI.addServer
    rcases o with _ | o
    · simp
    · by_cases ho : o = 0 <;> simp [ho]
  · intro n sid i db e
    rfl
  · intro n sid i db
    rfl
  · intro t fn fu sid suid i now db e
    rfl
  · intro t fn fu sid suid i now db
    rfl

theorem C6_amended_add_witness :
    SemesterAPI.addBrowser "Semester 9" (some 9) "n3w1d2y"
        ⟨.val [⟨"a1a1a1a", "A", 1⟩], .absent, .absent⟩
      = (some ⟨"n3w1d2y", "Semester 9", 9⟩,
         ⟨.val [⟨"a1a1a1a", "A", 1⟩, ⟨"n3w1d2y", "Semester 9", 9⟩],
          .absent, .absent⟩)
    ∧ SemesterAPI.addBrowser "X" none "x0x0x0x" ⟨.malformed, .absent, .absent⟩
      = (none, ⟨.malformed, .absent, .absent⟩)
    ∧ SemesterAPI.addServer "Semester 9" (some 9) "n3w1d2z" [] none none
      = (some ⟨"n3w1d2z", "Semester 9", 9⟩, [⟨"n3w1d2z", "Semester 9", 9⟩]) := by
  refine ⟨?_, ?_, ?_⟩
  · have h := C6_amended_add.1 "Semester 9" (some 9) "n3w1d2y"
      ⟨.val [⟨"a1a1a1a", "A", 1⟩], .absent, .absent⟩ [⟨"a1a1a1a", "A", 1⟩] rfl
    rw [h]
    rfl
  · exact C6_amended_add.2.1 "X" none "x0x0x0x" ⟨.malformed, .absent, .absent⟩ rfl
  · exact C6_amended_add.2.2.2.1 "Semester 9" "n3w1d2z" [] 9 (by decide)

end AppModel
